import Mathlib

/-!
# Verification of the employee-attrition analysis core (src/hr.py)

Shallow embedding of the decision logic of `EmployeeAttritionAnalyzer`:
the categorizer (`process_data`, lines 144-166), the insight engine
(`generate_insights`, lines 168-214), the statistics aggregator
(`get_summary_stats`, lines 216-243) and the recommendation engine
(`generate_recommendations`, lines 245-278).

Modelling conventions:
* A pandas DataFrame row becomes a `Record`; the dataset is a `List Record`.
* Floating-point means and percentages are modelled over `ℚ` (counts are
  integers, so every mean is an exact rational; the float thresholds
  65, 50, 40, 30, 1.2 and 0.8 are exact in binary-independent rational form).
* `Series.mean()` of an empty series is NaN in pandas; any comparison with
  NaN is `False`.  We model such means as `Option ℚ` (`none` for the empty
  series) and comparisons through `optGt` / `optLt`, which return `false`
  on `none` — exactly the pandas behaviour.
* `Series.mode().iloc[0]` on an empty series raises `IndexError`; the
  fallible engines therefore return `Except String _`, with `Except.error`
  marking the raised exception.  The `if self.processed_data is None`
  guard in the source corresponds to *no dataset having been processed at
  all* and has no counterpart for a value-level dataset; an empty
  DataFrame (zero rows) is modelled as `[]`.
* `pd.cut(x, bins, labels)` uses its default `right=True`, i.e. the
  intervals are left-open and right-closed `(lo, hi]`; values outside the
  outermost bins get no label (NaN), modelled as `none`.
* `groupby` sorts its keys ascending (pandas default `sort=True`), so the
  yearly counts are listed in increasing year order.
* `Series.mode()` returns the modal values sorted ascending and
  `.iloc[0]` takes the smallest; both Python and Lean compare strings
  lexicographically by code point.
* `value_counts().index[0]` is an argmax over departments; on ties pandas
  keeps the first-encountered value, modelled by a left fold that only
  replaces the current best on strictly larger count.
-/

/-- One employee-departure record (one DataFrame row).  Field names follow
the source columns: gender = الجنس, age = السن, dept = الإدارة,
reason = السبب, year = سنة_الترك, tenure = مدة_الخدمة_بالسنوات,
salary = الراتب_الشهري. -/
structure Record where
  empId : Nat
  gender : String
  age : Int
  dept : String
  reason : String
  year : Int
  tenure : ℚ
  salary : ℚ
deriving DecidableEq, Repr

/-- `pd.cut` with default `right=True`: the value `x` gets label `i`
when `bins[i] < x ≤ bins[i+1]`; outside all bins the result is NaN
(`none`). -/
def pdCut (bins : List ℚ) (labels : List String) (x : ℚ) : Option String :=
  match bins, labels with
  | lo :: hi :: bs, lab :: labs =>
      if lo < x ∧ x ≤ hi then some lab else pdCut (hi :: bs) labs x
  | _, _ => none

/-- Age bands, source line 149: bins [0,25,35,45,55,100]. -/
def ageBandOf (x : ℚ) : Option String :=
  pdCut [0, 25, 35, 45, 55, 100]
    ["أقل من 25", "25-35", "35-45", "45-55", "أكثر من 55"] x

/-- Tenure bands, source line 154: bins [0,1,3,5,10,100]. -/
def tenureBandOf (x : ℚ) : Option String :=
  pdCut [0, 1, 3, 5, 10, 100]
    ["أقل من سنة", "1-3 سنوات", "3-5 سنوات", "5-10 سنوات", "أكثر من 10 سنوات"] x

/-- Salary bands, source line 159: bins [0,5000,8000,12000,20000,100000]. -/
def salaryBandOf (x : ℚ) : Option String :=
  pdCut [0, 5000, 8000, 12000, 20000, 100000]
    ["أقل من 5000", "5000-8000", "8000-12000", "12000-20000", "أكثر من 20000"] x

/-- A record together with its three derived band columns
(فئة_العمر, فئة_مدة_الخدمة, فئة_الراتب). -/
structure EnrichedRecord where
  base : Record
  ageBand : Option String
  tenureBand : Option String
  salaryBand : Option String
deriving DecidableEq, Repr

/-- The categorizer part of `process_data` (source lines 144-163): attach
the three band columns to a record. -/
def enrich (r : Record) : EnrichedRecord :=
  { base := r
    ageBand := ageBandOf (r.age : ℚ)
    tenureBand := tenureBandOf r.tenure
    salaryBand := salaryBandOf r.salary }

/-- `process_data` applied to a whole dataset: an enriched copy of the
input (the source copies the DataFrame, then adds the three columns). -/
def process_data (records : List Record) : List EnrichedRecord :=
  records.map enrich

/-- Mean of a list of rationals; `none` models pandas returning NaN for an
empty series. -/
def listMean (l : List ℚ) : Option ℚ :=
  match l with
  | [] => none
  | _ => some (l.sum / (l.length : ℚ))

/-- `(series == v).mean() * 100` over the dataset: the percentage of
records satisfying `p`, `none` when the dataset is empty (NaN). -/
def pctOf (records : List Record) (p : Record → Bool) : Option ℚ :=
  match records with
  | [] => none
  | _ => some (((records.countP p : ℚ) / (records.length : ℚ)) * 100)

/-- `x > c` where `x` may be NaN: pandas comparisons with NaN are False. -/
def optGt (x : Option ℚ) (c : ℚ) : Bool :=
  match x with
  | none => false
  | some v => decide (c < v)

/-- Percentage of male records (`الجنس == 'ذكر'`). -/
def malePctOf (records : List Record) : Option ℚ :=
  pctOf records (fun r => r.gender == "ذكر")

/-- Percentage of female records (`الجنس == 'أنثى'`). -/
def femalePctOf (records : List Record) : Option ℚ :=
  pctOf records (fun r => r.gender == "أنثى")

/-- The insight strings of `generate_insights`, one constructor per
format string of the source, carrying the data interpolated into it. -/
inductive Insight where
  | maleSkew (pct : ℚ)
  | femaleSkew (pct : ℚ)
  | dominantReason (reason : String) (pct : ℚ)
  | trendUp
  | trendDown
  | topDepartment (dept : String)
  | youthAttrition (pct : ℚ)
  | shortTenure (pct : ℚ)
deriving DecidableEq, Repr

/-- Gender-skew rule (source lines 175-182): male warning when
male share > 65%, else female warning when female share > 50%. -/
def genderInsights (records : List Record) : List Insight :=
  if optGt (malePctOf records) 65 then
    [Insight.maleSkew ((malePctOf records).getD 0)]
  else if optGt (femalePctOf records) 50 then
    [Insight.femaleSkew ((femalePctOf records).getD 0)]
  else []

/-- Number of records with the given departure reason. -/
def reasonCount (records : List Record) (s : String) : Nat :=
  records.countP (fun r => r.reason == s)

/-- Lexicographic string comparison by code point, as Python compares
strings (computable form of Mathlib's `<` on `String`). -/
def strLtB (a b : String) : Bool :=
  decide (a.data < b.data)

/-- Selection underlying `Series.mode().iloc[0]`: the element with the
highest score; among equally-scored elements the smallest string (mode
returns the modal values sorted ascending, iloc[0] takes the first). -/
def bestReason (score : String → Nat) : List String → Option String
  | [] => none
  | a :: l =>
    some ((bestReason score l).elim a
      (fun b => if score a < score b ∨ (score a = score b ∧ strLtB b a) then b else a))

/-- `self.processed_data['السبب'].mode().iloc[0]` (source lines 185, 250):
the modal departure reason, ties broken towards the smallest string;
`none` (IndexError in the source) on an empty dataset. -/
def topReason (records : List Record) : Option String :=
  bestReason (reasonCount records) (records.map (fun r => r.reason))

/-- Number of records in the given department. -/
def deptCount (records : List Record) (s : String) : Nat :=
  records.countP (fun r => r.dept == s)

/-- Helper of `uniqueInOrder`: keep the elements not yet seen. -/
def uniqueAux {α : Type} [DecidableEq α] (seen : List α) : List α → List α
  | [] => []
  | a :: l => if a ∈ seen then uniqueAux seen l else a :: uniqueAux (a :: seen) l

/-- Distinct values in first-encounter order (hash-table order of pandas
groupby / value_counts before sorting). -/
def uniqueInOrder {α : Type} [DecidableEq α] (l : List α) : List α :=
  uniqueAux [] l

/-- `value_counts().index[0]` (source lines 201, 275): the department with
the highest count, ties keeping the first-encountered department; `none`
(IndexError in the source) on an empty dataset. -/
def topDept (records : List Record) : Option String :=
  match uniqueInOrder (records.map (fun r => r.dept)) with
  | [] => none
  | d :: ds =>
      some (ds.foldl (fun b x => if deptCount records b < deptCount records x then x else b) d)

/-- Insertion of an integer into a sorted list. -/
def insertSorted (y : Int) : List Int → List Int
  | [] => [y]
  | a :: l => if y ≤ a then y :: a :: l else a :: insertSorted y l

/-- Ascending insertion sort of integers. -/
def sortInts (l : List Int) : List Int :=
  l.foldr insertSorted []

/-- `groupby('سنة_الترك').size()` (source line 190): per-year record
counts, listed in ascending year order (pandas groupby sorts its keys). -/
def yearlyCounts (records : List Record) : List Nat :=
  (sortInts (uniqueInOrder (records.map (fun r => r.year)))).map
    (fun y => records.countP (fun r => r.year == y))

/-- `yearly_trend.iloc[-3:].mean()`: mean count of the (up to) 3 most
recent years. -/
def recentYearMean (records : List Record) : Option ℚ :=
  listMean (((yearlyCounts records).drop ((yearlyCounts records).length - 3)).map
    (fun n : Nat => (n : ℚ)))

/-- `yearly_trend.iloc[:-3].mean()`: mean count of all years before the 3
most recent ones; `none` (NaN) when at most 3 distinct years exist. -/
def earlierYearMean (records : List Record) : Option ℚ :=
  listMean (((yearlyCounts records).take ((yearlyCounts records).length - 3)).map
    (fun n : Nat => (n : ℚ)))

/-- `x > y * c` where either side may be NaN: pandas comparisons with NaN
are False. -/
def optGtMul (x y : Option ℚ) (c : ℚ) : Bool :=
  x.elim false (fun a => y.elim false (fun b => decide (b * c < a)))

/-- `x < y * c` where either side may be NaN: pandas comparisons with NaN
are False. -/
def optLtMul (x y : Option ℚ) (c : ℚ) : Bool :=
  x.elim false (fun a => y.elim false (fun b => decide (a < b * c)))

/-- Yearly-trend rule (source lines 189-197): with more than one distinct
year, emit the upward insight when recent mean > 1.2 × earlier mean, else
the downward insight when recent mean < 0.8 × earlier mean; comparisons
with the NaN mean of an empty earlier slice are false. -/
def trendInsight (records : List Record) : List Insight :=
  if 1 < (yearlyCounts records).length then
    if optGtMul (recentYearMean records) (earlierYearMean records) (12 / 10) then
      [Insight.trendUp]
    else if optLtMul (recentYearMean records) (earlierYearMean records) (8 / 10) then
      [Insight.trendDown]
    else []
  else []

/-- Youth rule (source lines 205-207): share of records with age < 30
above 40% emits a warning citing the percentage. -/
def youthInsight (records : List Record) : List Insight :=
  if optGt (pctOf records (fun r => decide (r.age < 30))) 40 then
    [Insight.youthAttrition ((pctOf records (fun r => decide (r.age < 30))).getD 0)]
  else []

/-- Short-tenure rule (source lines 210-212): share of records with
tenure < 2 above 30% emits a note citing the percentage. -/
def shortTenureInsight (records : List Record) : List Insight :=
  if optGt (pctOf records (fun r => decide (r.tenure < 2))) 30 then
    [Insight.shortTenure ((pctOf records (fun r => decide (r.tenure < 2))).getD 0)]
  else []

/-- `generate_insights` (source lines 168-214).  The rules run in source
order: gender skew, dominant reason, yearly trend, top department, youth,
short tenure.  On an empty dataset `mode().iloc[0]` raises IndexError
(the gender rule before it emits nothing since its NaN comparisons are
false), modelled as `Except.error`. -/
def generate_insights (records : List Record) : Except String (List Insight) :=
  match topReason records with
  | none => Except.error "IndexError: single positional indexer is out-of-bounds"
  | some tr =>
    match topDept records with
    | none => Except.error "IndexError: index 0 is out of bounds"
    | some td =>
      Except.ok
        (genderInsights records ++
          [Insight.dominantReason tr ((pctOf records (fun r => r.reason == tr)).getD 0)] ++
          trendInsight records ++
          [Insight.topDepartment td] ++
          youthInsight records ++
          shortTenureInsight records)

/-- The dictionary returned by `get_summary_stats` (source lines 231-243).
`years_range` in the source is the formatted string
"{min_year} - {max_year}"; we keep the two numbers (`none` = NaN on an
empty dataset).  The average fields are `none` (NaN) on an empty
dataset. -/
structure SummaryStatistics where
  total : Nat
  male_count : Nat
  female_count : Nat
  male_pct : ℚ
  female_pct : ℚ
  avg_age : Option ℚ
  avg_service : Option ℚ
  avg_salary : Option ℚ
  min_year : Option Int
  max_year : Option Int
  unique_reasons : Nat
  unique_departments : Nat
deriving DecidableEq, Repr

/-- `get_summary_stats` (source lines 216-243).  The percentage fields are
guarded: `(count / total * 100) if total > 0 else 0`. -/
def get_summary_stats (records : List Record) : SummaryStatistics :=
  { total := records.length
    male_count := records.countP (fun r => r.gender == "ذكر")
    female_count := records.countP (fun r => r.gender == "أنثى")
    male_pct :=
      if 0 < records.length then
        ((records.countP (fun r => r.gender == "ذكر") : ℚ) / (records.length : ℚ)) * 100
      else 0
    female_pct :=
      if 0 < records.length then
        ((records.countP (fun r => r.gender == "أنثى") : ℚ) / (records.length : ℚ)) * 100
      else 0
    avg_age := listMean (records.map (fun r => (r.age : ℚ)))
    avg_service := listMean (records.map (fun r => r.tenure))
    avg_salary := listMean (records.map (fun r => r.salary))
    min_year := (records.map (fun r => r.year)).min?
    max_year := (records.map (fun r => r.year)).max?
    unique_reasons := (uniqueInOrder (records.map (fun r => r.reason))).length
    unique_departments := (uniqueInOrder (records.map (fun r => r.dept))).length }

/-- The recommendation strings of `generate_recommendations`, one
constructor per literal of the source (lines 245-278). -/
inductive Recommendation where
  | improveBenefits
  | retentionPrograms
  | salaryReview
  | salaryStudy
  | improveWorkEnv
  | improveCommunication
  | betterOnboarding
  | reviewHiring
  | maleFocus
  | workLifeBalance
  | deptAttention (dept : String)
deriving DecidableEq, Repr

/-- Dominant-reason branch (source lines 250-259): the three named reasons
each contribute two fixed strings, any other reason contributes none. -/
def reasonRecs (tr : String) : List Recommendation :=
  if tr = "فرصة عمل أخرى" then
    [Recommendation.improveBenefits, Recommendation.retentionPrograms]
  else if tr = "راتب غير مناسب" then
    [Recommendation.salaryReview, Recommendation.salaryStudy]
  else if tr = "بيئة عمل سيئة" then
    [Recommendation.improveWorkEnv, Recommendation.improveCommunication]
  else []

/-- Short-tenure branch (source lines 262-265): two fixed strings when the
share of records with tenure < 2 exceeds 30%. -/
def shortTenureRecs (records : List Record) : List Recommendation :=
  if optGt (pctOf records (fun r => decide (r.tenure < 2))) 30 then
    [Recommendation.betterOnboarding, Recommendation.reviewHiring]
  else []

/-- Gender branch (source lines 268-272): the male-focused string when
male share > 65%, otherwise the work-life-balance string. -/
def genderRec (records : List Record) : List Recommendation :=
  if optGt (malePctOf records) 65 then [Recommendation.maleFocus]
  else [Recommendation.workLifeBalance]

/-- `generate_recommendations` (source lines 245-278), rules in source
order: dominant reason, short tenure, gender branch, top department.  On
an empty dataset `mode().iloc[0]` (line 250) raises IndexError. -/
def generate_recommendations (records : List Record) : Except String (List Recommendation) :=
  match topReason records with
  | none => Except.error "IndexError: single positional indexer is out-of-bounds"
  | some tr =>
    match topDept records with
    | none => Except.error "IndexError: index 0 is out of bounds"
    | some td =>
      Except.ok
        (reasonRecs tr ++ shortTenureRecs records ++ genderRec records ++
          [Recommendation.deptAttention td])

/-- Concrete record builder used by the example datasets below. -/
def mkRec (g : String) (a : Int) (d s : String) (y : Int) (t sal : ℚ) : Record :=
  { empId := 0, gender := g, age := a, dept := d, reason := s, year := y, tenure := t, salary := sal }

/-- A record whose age is exactly the 25 boundary of the age bins. -/
def rec25 : Record := mkRec "ذكر" 25 "التسويق" "فرصة عمل أخرى" 2020 2 6000

/-- A single-record dataset for degenerate-case witnesses. -/
def demoData : List Record := [rec25]

/-- Years 2020-2024 with yearly counts [2, 2, 2, 10, 10] (spec section 8
end-to-end trend scenario). -/
def trendDemo : List Record :=
  List.replicate 2 (mkRec "ذكر" 30 "د" "س" 2020 3 8000) ++
  List.replicate 2 (mkRec "ذكر" 30 "د" "س" 2021 3 8000) ++
  List.replicate 2 (mkRec "ذكر" 30 "د" "س" 2022 3 8000) ++
  List.replicate 10 (mkRec "ذكر" 30 "د" "س" 2023 3 8000) ++
  List.replicate 10 (mkRec "ذكر" 30 "د" "س" 2024 3 8000)

/-- Two departure reasons with 5 records each: the dominant-reason
tie-break scenario of spec section 8. -/
def tieDemo : List Record :=
  List.replicate 5 (mkRec "ذكر" 30 "د" "بيئة عمل سيئة" 2020 3 8000) ++
  List.replicate 5 (mkRec "ذكر" 30 "د" "راتب غير مناسب" 2020 3 8000)

/-- 10 records, 7 male and 3 female: the 70% gender-skew scenario of spec
section 8. -/
def genderDemo : List Record :=
  List.replicate 7 (mkRec "ذكر" 30 "د" "س" 2020 3 8000) ++
  List.replicate 3 (mkRec "أنثى" 35 "د" "س" 2021 4 9000)

/-- Discriminator: is this insight the dominant-reason insight? -/
def Insight.isDominantReason : Insight → Bool
  | Insight.dominantReason _ _ => true
  | _ => false

/-- Discriminator: is this insight the top-department insight? -/
def Insight.isTopDepartment : Insight → Bool
  | Insight.topDepartment _ => true
  | _ => false

/-- Discriminator: is this recommendation the department-targeted one? -/
def Recommendation.isDeptAttention : Recommendation → Bool
  | Recommendation.deptAttention _ => true
  | _ => false

theorem strLtB_iff (a b : String) : strLtB a b = true ↔ a < b := by
  rw [strLtB, decide_eq_true_iff]
  exact Iff.symm String.lt_iff_toList_lt

theorem bestReason_eq_none_iff (score : String → Nat) (l : List String) :
    bestReason score l = none ↔ l = [] := by
  cases l with
  | nil => simp [bestReason]
  | cons a l => simp [bestReason]

theorem bestReason_spec (score : String → Nat) :
    ∀ (l : List String) (b : String), bestReason score l = some b →
      b ∈ l ∧ (∀ x ∈ l, score x ≤ score b) ∧
        (∀ x ∈ l, score x = score b → b = x ∨ b < x) := by
  intro l
  induction l with
  | nil => intro b h; simp [bestReason] at h
  | cons a l ih =>
    intro b h
    simp only [bestReason] at h
    cases hbl : bestReason score l with
    | none =>
      rw [hbl, Option.elim_none] at h
      have hl : l = [] := (bestReason_eq_none_iff score l).mp hbl
      cases h
      subst hl
      refine ⟨List.mem_singleton_self a, ?_, ?_⟩
      · intro x hx
        rw [List.mem_singleton] at hx
        exact hx ▸ Nat.le_refl _
      · intro x hx _
        rw [List.mem_singleton] at hx
        exact Or.inl hx.symm
    | some c =>
      rw [hbl, Option.elim_some] at h
      obtain ⟨hmem, hmax, hmin⟩ := ih c hbl
      split_ifs at h with hcond
      · cases h
        refine ⟨List.mem_cons_of_mem a hmem, ?_, ?_⟩
        · intro x hx
          rcases List.mem_cons.mp hx with hxa | hxl
          · subst hxa
            rcases hcond with hlt | ⟨heq, _⟩
            · exact Nat.le_of_lt hlt
            · exact Nat.le_of_eq heq
          · exact hmax x hxl
        · intro x hx hscore
          rcases List.mem_cons.mp hx with hxa | hxl
          · subst hxa
            rcases hcond with hlt | ⟨heq, hstr⟩
            · exact absurd hscore (Nat.ne_of_lt hlt)
            · exact Or.inr ((strLtB_iff _ _).mp hstr)
          · exact hmin x hxl hscore
      · cases h
        rw [not_or] at hcond
        obtain ⟨hnlt, hnand⟩ := hcond
        have hca : score c ≤ score a := Nat.le_of_not_lt hnlt
        refine ⟨List.mem_cons_self a l, ?_, ?_⟩
        · intro x hx
          rcases List.mem_cons.mp hx with hxa | hxl
          · exact hxa ▸ Nat.le_refl _
          · exact Nat.le_trans (hmax x hxl) hca
        · intro x hx hscore
          rcases List.mem_cons.mp hx with hxa | hxl
          · exact Or.inl hxa.symm
          · have hxc : score x ≤ score c := hmax x hxl
            have hac : score a = score c := Nat.le_antisymm (hscore.symm.le.trans hxc) hca
            have hnstr : ¬ strLtB c a = true := fun hs => hnand ⟨hac, hs⟩
            have hnca : ¬ c < a := fun hlt => hnstr ((strLtB_iff c a).mpr hlt)
            rcases hmin x hxl (hscore.trans hac) with hcx | hcx
            · rcases lt_trichotomy a x with hax | hax | hax
              · exact Or.inr hax
              · exact Or.inl hax
              · exact absurd hax (hcx ▸ hnca)
            · rcases lt_trichotomy a c with hac2 | hac2 | hac2
              · exact Or.inr (lt_trans hac2 hcx)
              · exact Or.inr (hac2 ▸ hcx)
              · exact absurd hac2 hnca

theorem topReason_isSome (records : List Record) (h : records ≠ []) :
    ∃ tr, topReason records = some tr := by
  rw [topReason]
  cases hb : bestReason (reasonCount records) (records.map (fun r => r.reason)) with
  | none =>
    have := (bestReason_eq_none_iff _ _).mp hb
    rw [List.map_eq_nil_iff] at this
    exact absurd this h
  | some tr => exact ⟨tr, rfl⟩

theorem reasonCount_eq_zero_of_not_mem (records : List Record) (s : String)
    (h : s ∉ records.map (fun r => r.reason)) : reasonCount records s = 0 := by
  rw [reasonCount, List.countP_eq_zero]
  intro r hr
  simp only [beq_iff_eq]
  intro heq
  exact h (heq ▸ List.mem_map_of_mem (fun r => r.reason) hr)

theorem topReason_spec (records : List Record) (tr : String)
    (h : topReason records = some tr) :
    tr ∈ records.map (fun r => r.reason) ∧
      (∀ s, reasonCount records s ≤ reasonCount records tr) ∧
      (∀ s ∈ records.map (fun r => r.reason),
        reasonCount records s = reasonCount records tr → tr = s ∨ tr < s) := by
  obtain ⟨hmem, hmax, hmin⟩ := bestReason_spec (reasonCount records) _ tr h
  refine ⟨hmem, ?_, hmin⟩
  intro s
  by_cases hs : s ∈ records.map (fun r => r.reason)
  · exact hmax s hs
  · rw [reasonCount_eq_zero_of_not_mem records s hs]
    exact Nat.zero_le _

theorem topDept_isSome (records : List Record) (h : records ≠ []) :
    ∃ d, topDept records = some d := by
  cases records with
  | nil => exact absurd rfl h
  | cons r l =>
    simp only [topDept, uniqueInOrder, List.map_cons, uniqueAux, List.not_mem_nil,
      if_false]
    exact ⟨_, rfl⟩

theorem pctOf_ne_nil (records : List Record) (p : Record → Bool) (h : records ≠ []) :
    pctOf records p =
      some (((records.countP p : ℚ) / (records.length : ℚ)) * 100) := by
  cases records with
  | nil => exact absurd rfl h
  | cons r l => rfl

theorem pctOf_isSome (records : List Record) (p : Record → Bool) (h : records ≠ []) :
    ∃ q, pctOf records p = some q := by
  rw [pctOf_ne_nil records p h]
  exact ⟨_, rfl⟩

theorem genderInsights_cases (records : List Record) :
    genderInsights records = [] ∨
      (∃ p, genderInsights records = [Insight.maleSkew p]) ∨
      (∃ p, genderInsights records = [Insight.femaleSkew p]) := by
  rw [genderInsights]
  split_ifs
  · exact Or.inr (Or.inl ⟨_, rfl⟩)
  · exact Or.inr (Or.inr ⟨_, rfl⟩)
  · exact Or.inl rfl

theorem trendInsight_cases (records : List Record) :
    trendInsight records = [] ∨ trendInsight records = [Insight.trendUp] ∨
      trendInsight records = [Insight.trendDown] := by
  rw [trendInsight]
  split_ifs
  · exact Or.inr (Or.inl rfl)
  · exact Or.inr (Or.inr rfl)
  · exact Or.inl rfl
  · exact Or.inl rfl

theorem youthInsight_cases (records : List Record) :
    youthInsight records = [] ∨ ∃ p, youthInsight records = [Insight.youthAttrition p] := by
  rw [youthInsight]
  split_ifs
  · exact Or.inr ⟨_, rfl⟩
  · exact Or.inl rfl

theorem shortTenureInsight_cases (records : List Record) :
    shortTenureInsight records = [] ∨
      ∃ p, shortTenureInsight records = [Insight.shortTenure p] := by
  rw [shortTenureInsight]
  split_ifs
  · exact Or.inr ⟨_, rfl⟩
  · exact Or.inl rfl

theorem generate_insights_eq (records : List Record) (tr td : String)
    (htr : topReason records = some tr) (htd : topDept records = some td) :
    generate_insights records =
      Except.ok
        (genderInsights records ++
          [Insight.dominantReason tr ((pctOf records (fun r => r.reason == tr)).getD 0)] ++
          trendInsight records ++
          [Insight.topDepartment td] ++
          youthInsight records ++
          shortTenureInsight records) := by
  rw [generate_insights, htr, htd]

theorem generate_insights_ok (records : List Record) (h : records ≠ []) :
    ∃ l, generate_insights records = Except.ok l := by
  obtain ⟨tr, htr⟩ := topReason_isSome records h
  obtain ⟨td, htd⟩ := topDept_isSome records h
  exact ⟨_, generate_insights_eq records tr td htr htd⟩

theorem reasonRecs_cases (tr : String) :
    reasonRecs tr = [] ∨
      reasonRecs tr = [Recommendation.improveBenefits, Recommendation.retentionPrograms] ∨
      reasonRecs tr = [Recommendation.salaryReview, Recommendation.salaryStudy] ∨
      reasonRecs tr = [Recommendation.improveWorkEnv, Recommendation.improveCommunication] := by
  rw [reasonRecs]
  split_ifs
  · exact Or.inr (Or.inl rfl)
  · exact Or.inr (Or.inr (Or.inl rfl))
  · exact Or.inr (Or.inr (Or.inr rfl))
  · exact Or.inl rfl

theorem shortTenureRecs_cases (records : List Record) :
    shortTenureRecs records = [] ∨
      shortTenureRecs records = [Recommendation.betterOnboarding, Recommendation.reviewHiring] := by
  rw [shortTenureRecs]
  split_ifs
  · exact Or.inr rfl
  · exact Or.inl rfl

theorem genderRec_cases (records : List Record) :
    genderRec records = [Recommendation.maleFocus] ∨
      genderRec records = [Recommendation.workLifeBalance] := by
  rw [genderRec]
  split_ifs
  · exact Or.inl rfl
  · exact Or.inr rfl

theorem genderRec_male_iff (records : List Record) :
    genderRec records = [Recommendation.maleFocus] ↔ optGt (malePctOf records) 65 = true := by
  rw [genderRec]
  split_ifs with h
  · simp [h]
  · simp [h]

theorem generate_recommendations_eq (records : List Record) (tr td : String)
    (htr : topReason records = some tr) (htd : topDept records = some td) :
    generate_recommendations records =
      Except.ok
        (reasonRecs tr ++ shortTenureRecs records ++ genderRec records ++
          [Recommendation.deptAttention td]) := by
  rw [generate_recommendations, htr, htd]

theorem pdCut_five (b0 b1 b2 b3 b4 b5 : ℚ) (l1 l2 l3 l4 l5 : String) (x : ℚ)
    (h0 : b0 < x) (h5 : x ≤ b5) :
    pdCut [b0, b1, b2, b3, b4, b5] [l1, l2, l3, l4, l5] x =
      some (if x ≤ b1 then l1 else if x ≤ b2 then l2 else if x ≤ b3 then l3
        else if x ≤ b4 then l4 else l5) := by
  simp only [pdCut]
  rcases le_or_lt x b1 with h1 | h1
  · rw [if_pos ⟨h0, h1⟩, if_pos h1]
  · rw [if_neg (fun hc => absurd hc.2 (not_le.mpr h1)), if_neg (not_le.mpr h1)]
    rcases le_or_lt x b2 with h2 | h2
    · rw [if_pos ⟨h1, h2⟩, if_pos h2]
    · rw [if_neg (fun hc => absurd hc.2 (not_le.mpr h2)), if_neg (not_le.mpr h2)]
      rcases le_or_lt x b3 with h3 | h3
      · rw [if_pos ⟨h2, h3⟩, if_pos h3]
      · rw [if_neg (fun hc => absurd hc.2 (not_le.mpr h3)), if_neg (not_le.mpr h3)]
        rcases le_or_lt x b4 with h4 | h4
        · rw [if_pos ⟨h3, h4⟩, if_pos h4]
        · rw [if_neg (fun hc => absurd hc.2 (not_le.mpr h4)), if_neg (not_le.mpr h4)]
          rw [if_pos ⟨h4, h5⟩]

theorem optGt_some_iff (v c : ℚ) : optGt (some v) c = true ↔ c < v := by
  simp [optGt]

theorem listMean_nonneg (l : List ℚ) (h : ∀ q ∈ l, 0 ≤ q) (m : ℚ)
    (hm : listMean l = some m) : 0 ≤ m := by
  cases l with
  | nil => simp [listMean] at hm
  | cons a t =>
    simp only [listMean, Option.some.injEq] at hm
    subst hm
    apply div_nonneg (List.sum_nonneg h)
    exact_mod_cast Nat.zero_le _

theorem natCastList_nonneg (l : List Nat) (q : ℚ)
    (hq : q ∈ l.map (fun n : Nat => (n : ℚ))) : 0 ≤ q := by
  induction l with
  | nil => simp at hq
  | cons a t ih =>
    rw [List.map_cons, List.mem_cons] at hq
    rcases hq with h | h
    · rw [h]; exact Nat.cast_nonneg a
    · exact ih h

theorem earlierYearMean_nonneg (records : List Record) (em : ℚ)
    (h : earlierYearMean records = some em) : 0 ≤ em := by
  apply listMean_nonneg _ _ em h
  intro q hq
  exact natCastList_nonneg _ q hq

theorem countP_gender_split (records : List Record)
    (hg : ∀ r ∈ records, r.gender = "ذكر" ∨ r.gender = "أنثى") :
    records.countP (fun r => r.gender == "ذكر") +
      records.countP (fun r => r.gender == "أنثى") = records.length := by
  induction records with
  | nil => rfl
  | cons a l ih =>
    have hl : ∀ r ∈ l, r.gender = "ذكر" ∨ r.gender = "أنثى" :=
      fun r hr => hg r (List.mem_cons_of_mem a hr)
    have ihl := ih hl
    have d1 : (("ذكر" == "ذكر") : Bool) = true := by decide
    have d2 : (("ذكر" == "أنثى") : Bool) = false := by decide
    have d3 : (("أنثى" == "ذكر") : Bool) = false := by decide
    have d4 : (("أنثى" == "أنثى") : Bool) = true := by decide
    rcases hg a (List.mem_cons_self a l) with h | h <;>
      simp [List.countP_cons, h, d1, d2, d3, d4, List.length_cons] <;>
      omega

theorem mem_insights_iff (records : List Record) (tr td : String)
    (htr : topReason records = some tr) (htd : topDept records = some td)
    (i : Insight) (l : List Insight) (hl : generate_insights records = Except.ok l) :
    i ∈ l ↔
      i ∈ genderInsights records ∨
        i = Insight.dominantReason tr ((pctOf records (fun r => r.reason == tr)).getD 0) ∨
        i ∈ trendInsight records ∨ i = Insight.topDepartment td ∨
        i ∈ youthInsight records ∨ i ∈ shortTenureInsight records := by
  rw [generate_insights_eq records tr td htr htd] at hl
  cases hl
  simp [List.mem_append, or_assoc]

theorem genderInsights_eq_male (records : List Record) (m : ℚ)
    (hm : malePctOf records = some m) (h : 65 < m) :
    genderInsights records = [Insight.maleSkew m] := by
  rw [genderInsights, if_pos (by rw [hm]; exact (optGt_some_iff m 65).mpr h), hm]
  rfl

theorem genderInsights_eq_female (records : List Record) (m f : ℚ)
    (hm : malePctOf records = some m) (hf : femalePctOf records = some f)
    (h65 : m ≤ 65) (h50 : 50 < f) :
    genderInsights records = [Insight.femaleSkew f] := by
  rw [genderInsights,
    if_neg (by rw [hm, optGt_some_iff]; exact not_lt.mpr h65),
    if_pos (by rw [hf]; exact (optGt_some_iff f 50).mpr h50), hf]
  rfl

theorem genderInsights_eq_nil (records : List Record) (m f : ℚ)
    (hm : malePctOf records = some m) (hf : femalePctOf records = some f)
    (h65 : m ≤ 65) (h50 : f ≤ 50) :
    genderInsights records = [] := by
  rw [genderInsights,
    if_neg (by rw [hm, optGt_some_iff]; exact not_lt.mpr h65),
    if_neg (by rw [hf, optGt_some_iff]; exact not_lt.mpr h50)]

/-- C1 (counterexample): the claim says a record with age exactly 25
receives the age band "25-35", not "<25"; on the code (`pd.cut` with its
default right-closed intervals) the record with age 25 receives
"أقل من 25" (<25) and not "25-35". -/
theorem c1_age25_counterexample :
    (enrich rec25).ageBand = some "أقل من 25" ∧
      (enrich rec25).ageBand ≠ some "25-35" := by
  constructor
  · rfl
  · decide

/-- C1 (amended): the three derived band labels are assigned by LEFT-open
RIGHT-closed intervals: a value exactly equal to an interior boundary
belongs to the LOWER band (age 25 gets "أقل من 25", tenure boundaries
1, 3, 5, 10 and salary boundaries 5000, 8000, 12000, 20000 behave the
same way); within the clamped input ranges every record gets a band. -/
theorem c1_bands_right_closed (x : ℚ) :
    (0 < x → x ≤ 100 →
      ageBandOf x =
        some (if x ≤ 25 then "أقل من 25" else if x ≤ 35 then "25-35"
          else if x ≤ 45 then "35-45" else if x ≤ 55 then "45-55"
          else "أكثر من 55")) ∧
    (0 < x → x ≤ 100 →
      tenureBandOf x =
        some (if x ≤ 1 then "أقل من سنة" else if x ≤ 3 then "1-3 سنوات"
          else if x ≤ 5 then "3-5 سنوات" else if x ≤ 10 then "5-10 سنوات"
          else "أكثر من 10 سنوات")) ∧
    (0 < x → x ≤ 100000 →
      salaryBandOf x =
        some (if x ≤ 5000 then "أقل من 5000" else if x ≤ 8000 then "5000-8000"
          else if x ≤ 12000 then "8000-12000" else if x ≤ 20000 then "12000-20000"
          else "أكثر من 20000")) := by
  refine ⟨fun h0 h5 => ?_, fun h0 h5 => ?_, fun h0 h5 => ?_⟩
  · rw [ageBandOf]
    exact pdCut_five 0 25 35 45 55 100 _ _ _ _ _ x h0 h5
  · rw [tenureBandOf]
    exact pdCut_five 0 1 3 5 10 100 _ _ _ _ _ x h0 h5
  · rw [salaryBandOf]
    exact pdCut_five 0 5000 8000 12000 20000 100000 _ _ _ _ _ x h0 h5

/-- C1 (witness): the amended band policy evaluated at the boundary value
25 (age), at 3 (tenure) and at 8000 (salary): each falls in its lower
band. -/
theorem c1_bands_right_closed_witness :
    ageBandOf 25 = some "أقل من 25" ∧ tenureBandOf 3 = some "1-3 سنوات" ∧
      salaryBandOf 8000 = some "5000-8000" := by
  refine ⟨?_, ?_, ?_⟩
  · have h := (c1_bands_right_closed 25).1 (by norm_num) (by norm_num)
    norm_num at h
    exact h
  · have h := (c1_bands_right_closed 3).2.1 (by norm_num) (by norm_num)
    norm_num at h
    exact h
  · have h := (c1_bands_right_closed 8000).2.2 (by norm_num) (by norm_num)
    norm_num at h
    exact h

/-- C2 (counterexample): the claim says an entirely empty dataset makes
insight generation short-circuit to an empty list; on the code an empty
(zero-row) dataset raises IndexError in the dominant-reason rule
(`mode().iloc[0]` on an empty series), because the only guard checks
`processed_data is None`, which an empty DataFrame does not satisfy. -/
theorem c2_empty_dataset_faults :
    generate_insights [] =
      Except.error "IndexError: single positional indexer is out-of-bounds" := rfl

/-- C2 (amended): for every NON-empty dataset no insight rule raises an
error (the engine returns a result list); on an empty dataset the
dominant-reason rule faults instead of short-circuiting, the `None`
short-circuit applying only when no dataset has been processed at all. -/
theorem c2_nonempty_no_fault (records : List Record) (h : records ≠ []) :
    ∃ l, generate_insights records = Except.ok l :=
  generate_insights_ok records h

/-- C2 (witness): on a concrete one-record dataset the insight engine
returns a result without faulting. -/
theorem c2_nonempty_no_fault_witness :
    ∃ l, generate_insights demoData = Except.ok l :=
  c2_nonempty_no_fault demoData (by decide)

/-- C6: `get_summary_stats` on an empty dataset returns total = 0 and
both percentage fields equal to 0 — the `if total > 0` guard makes the
division well-defined and no fault is raised (the function is total). -/
theorem c6_empty_summary_stats :
    (get_summary_stats []).total = 0 ∧ (get_summary_stats []).male_pct = 0 ∧
      (get_summary_stats []).female_pct = 0 :=
  ⟨rfl, rfl, rfl⟩

/-- C8 (counterexample): the claim quantifies over every dataset whose
gender field takes only the two enum values; the empty dataset satisfies
that hypothesis vacuously, yet both percentage fields are 0 and their sum
is 0, not 100. -/
theorem c8_empty_counterexample :
    (∀ r ∈ ([] : List Record), r.gender = "ذكر" ∨ r.gender = "أنثى") ∧
      (get_summary_stats ([] : List Record)).male_pct +
        (get_summary_stats ([] : List Record)).female_pct ≠ 100 := by
  constructor
  · intro r hr
    exact absurd hr (List.not_mem_nil r)
  · intro hsum
    have h0 : (get_summary_stats ([] : List Record)).male_pct = 0 := rfl
    have h1 : (get_summary_stats ([] : List Record)).female_pct = 0 := rfl
    rw [h0, h1] at hsum
    norm_num at hsum

/-- C8 (amended): for every NON-empty dataset whose gender field takes
only the two enum values, the male and female percentages each lie in
[0, 100] and sum to exactly 100. -/
theorem c8_gender_percentages (records : List Record) (hne : records ≠ [])
    (hg : ∀ r ∈ records, r.gender = "ذكر" ∨ r.gender = "أنثى") :
    0 ≤ (get_summary_stats records).male_pct ∧
      (get_summary_stats records).male_pct ≤ 100 ∧
      0 ≤ (get_summary_stats records).female_pct ∧
      (get_summary_stats records).female_pct ≤ 100 ∧
      (get_summary_stats records).male_pct + (get_summary_stats records).female_pct
        = 100 := by
  have hlen : 0 < records.length := List.length_pos.mpr hne
  have hq : (0 : ℚ) < (records.length : ℚ) := by exact_mod_cast hlen
  have hm : (get_summary_stats records).male_pct =
      ((records.countP (fun r => r.gender == "ذكر") : ℚ) / (records.length : ℚ)) * 100 := by
    simp only [get_summary_stats]
    rw [if_pos hlen]
  have hf : (get_summary_stats records).female_pct =
      ((records.countP (fun r => r.gender == "أنثى") : ℚ) / (records.length : ℚ)) * 100 := by
    simp only [get_summary_stats]
    rw [if_pos hlen]
  have hkey : (records.countP (fun r => r.gender == "ذكر") : ℚ) +
      (records.countP (fun r => r.gender == "أنثى") : ℚ) = (records.length : ℚ) := by
    exact_mod_cast countP_gender_split records hg
  have hmle : (records.countP (fun r => r.gender == "ذكر") : ℚ) ≤ (records.length : ℚ) := by
    exact_mod_cast List.countP_le_length _
  have hfle : (records.countP (fun r => r.gender == "أنثى") : ℚ) ≤ (records.length : ℚ) := by
    exact_mod_cast List.countP_le_length _
  refine ⟨?_, ?_, ?_, ?_, ?_⟩
  · rw [hm]
    positivity
  · rw [hm]
    have h1 : (records.countP (fun r => r.gender == "ذكر") : ℚ) / (records.length : ℚ) ≤ 1 :=
      (div_le_one hq).mpr hmle
    linarith
  · rw [hf]
    positivity
  · rw [hf]
    have h1 : (records.countP (fun r => r.gender == "أنثى") : ℚ) / (records.length : ℚ) ≤ 1 :=
      (div_le_one hq).mpr hfle
    linarith
  · rw [hm, hf]
    field_simp
    linarith

/-- C8 (witness): the amended percentage invariant evaluated on the
concrete 7-male / 3-female dataset. -/
theorem c8_gender_percentages_witness :
    0 ≤ (get_summary_stats genderDemo).male_pct ∧
      (get_summary_stats genderDemo).male_pct ≤ 100 ∧
      0 ≤ (get_summary_stats genderDemo).female_pct ∧
      (get_summary_stats genderDemo).female_pct ≤ 100 ∧
      (get_summary_stats genderDemo).male_pct + (get_summary_stats genderDemo).female_pct
        = 100 :=
  c8_gender_percentages genderDemo (by decide) (by decide)

theorem optGtMul_some_iff (a b c : ℚ) :
    optGtMul (some a) (some b) c = true ↔ b * c < a := by
  simp [optGtMul]

theorem optLtMul_some_iff (a b c : ℚ) :
    optLtMul (some a) (some b) c = true ↔ a < b * c := by
  simp [optLtMul]

theorem optGtMul_none_left (y : Option ℚ) (c : ℚ) : optGtMul none y c = false := rfl

theorem optGtMul_none_right (a c : ℚ) : optGtMul (some a) none c = false := rfl

theorem optLtMul_none_left (y : Option ℚ) (c : ℚ) : optLtMul none y c = false := rfl

theorem optLtMul_none_right (a c : ℚ) : optLtMul (some a) none c = false := rfl

theorem trendInsight_up_iff (records : List Record) :
    Insight.trendUp ∈ trendInsight records ↔
      1 < (yearlyCounts records).length ∧
        ∃ rm em, recentYearMean records = some rm ∧
          earlierYearMean records = some em ∧ em * (12 / 10) < rm := by
  rw [trendInsight]
  split_ifs with hlen hup hdn
  · constructor
    · intro _
      refine ⟨hlen, ?_⟩
      cases hrm : recentYearMean records with
      | none => rw [hrm, optGtMul_none_left] at hup; exact absurd hup (by simp)
      | some rm =>
        cases hem : earlierYearMean records with
        | none => rw [hrm, hem, optGtMul_none_right] at hup; exact absurd hup (by simp)
        | some em =>
          rw [hrm, hem, optGtMul_some_iff] at hup
          exact ⟨rm, em, rfl, rfl, hup⟩
    · intro _
      exact List.mem_singleton_self _
  · constructor
    · intro h
      simp at h
    · rintro ⟨-, rm, em, hrm, hem, hlt⟩
      rw [hrm, hem] at hup
      exact absurd ((optGtMul_some_iff rm em _).mpr hlt) hup
  · constructor
    · intro h
      simp at h
    · rintro ⟨-, rm, em, hrm, hem, hlt⟩
      rw [hrm, hem] at hup
      exact absurd ((optGtMul_some_iff rm em _).mpr hlt) hup
  · constructor
    · intro h
      simp at h
    · rintro ⟨h1, -⟩
      exact absurd h1 hlen

theorem trendInsight_down_iff (records : List Record) :
    Insight.trendDown ∈ trendInsight records ↔
      1 < (yearlyCounts records).length ∧
        ∃ rm em, recentYearMean records = some rm ∧
          earlierYearMean records = some em ∧ rm < em * (8 / 10) := by
  rw [trendInsight]
  split_ifs with hlen hup hdn
  · constructor
    · intro h
      simp at h
    · rintro ⟨-, rm, em, hrm, hem, hlt⟩
      rw [hrm, hem, optGtMul_some_iff] at hup
      have hnn := earlierYearMean_nonneg records em hem
      linarith
  · constructor
    · intro _
      refine ⟨hlen, ?_⟩
      cases hrm : recentYearMean records with
      | none => rw [hrm, optLtMul_none_left] at hdn; exact absurd hdn (by simp)
      | some rm =>
        cases hem : earlierYearMean records with
        | none => rw [hrm, hem, optLtMul_none_right] at hdn; exact absurd hdn (by simp)
        | some em =>
          rw [hrm, hem, optLtMul_some_iff] at hdn
          exact ⟨rm, em, rfl, rfl, hdn⟩
    · intro _
      exact List.mem_singleton_self _
  · constructor
    · intro h
      simp at h
    · rintro ⟨-, rm, em, hrm, hem, hlt⟩
      rw [hrm, hem] at hdn
      exact absurd ((optLtMul_some_iff rm em _).mpr hlt) hdn
  · constructor
    · intro h
      simp at h
    · rintro ⟨h1, -⟩
      exact absurd h1 hlen

theorem mem_insights_trend (records : List Record) (tr td : String) (l : List Insight)
    (htr : topReason records = some tr) (htd : topDept records = some td)
    (hok : generate_insights records = Except.ok l) (i : Insight)
    (hi : i = Insight.trendUp ∨ i = Insight.trendDown) :
    i ∈ l ↔ i ∈ trendInsight records := by
  rw [mem_insights_iff records tr td htr htd i l hok]
  rcases genderInsights_cases records with hg | ⟨pg, hg⟩ | ⟨pg, hg⟩ <;>
    rcases youthInsight_cases records with hy | ⟨py, hy⟩ <;>
    rcases shortTenureInsight_cases records with hs | ⟨ps, hs⟩ <;>
    rcases hi with rfl | rfl <;>
    simp [hg, hy, hs]

theorem mem_insights_gender (records : List Record) (tr td : String) (l : List Insight)
    (htr : topReason records = some tr) (htd : topDept records = some td)
    (hok : generate_insights records = Except.ok l) (i : Insight)
    (hi : ∃ q, i = Insight.maleSkew q ∨ i = Insight.femaleSkew q) :
    i ∈ l ↔ i ∈ genderInsights records := by
  rw [mem_insights_iff records tr td htr htd i l hok]
  obtain ⟨q, hq⟩ := hi
  rcases trendInsight_cases records with ht | ht | ht <;>
    rcases youthInsight_cases records with hy | ⟨py, hy⟩ <;>
    rcases shortTenureInsight_cases records with hs | ⟨ps, hs⟩ <;>
    rcases hq with rfl | rfl <;>
    simp [ht, hy, hs]

/-- C3: for a dataset with at least 2 distinct departure years the trend
rule emits the upward insight iff the mean count of the (up to) 3 most
recent years exceeds 1.2 × the mean of all earlier years, the downward
insight iff the recent mean is below 0.8 × the earlier mean, and nothing
otherwise (when at most 3 distinct years exist, the earlier mean is NaN,
the comparisons are false and nothing is emitted); with fewer than 2
distinct years the rule emits nothing and does not fault. -/
theorem c3_yearly_trend_rule (records : List Record) (hne : records ≠ []) :
    ∃ l, generate_insights records = Except.ok l ∧
      (2 ≤ (yearlyCounts records).length →
        ((Insight.trendUp ∈ l ↔
            ∃ rm em, recentYearMean records = some rm ∧
              earlierYearMean records = some em ∧ em * (12 / 10) < rm) ∧
          (Insight.trendDown ∈ l ↔
            ∃ rm em, recentYearMean records = some rm ∧
              earlierYearMean records = some em ∧ rm < em * (8 / 10)))) ∧
      ((yearlyCounts records).length < 2 →
        Insight.trendUp ∉ l ∧ Insight.trendDown ∉ l) := by
  obtain ⟨tr, htr⟩ := topReason_isSome records hne
  obtain ⟨td, htd⟩ := topDept_isSome records hne
  have hok := generate_insights_eq records tr td htr htd
  have hup := mem_insights_trend records tr td _ htr htd hok Insight.trendUp (Or.inl rfl)
  have hdn := mem_insights_trend records tr td _ htr htd hok Insight.trendDown (Or.inr rfl)
  refine ⟨_, hok, ?_, ?_⟩
  · intro h2
    have h1 : 1 < (yearlyCounts records).length := h2
    constructor
    · rw [hup, trendInsight_up_iff]
      simp [h1]
    · rw [hdn, trendInsight_down_iff]
      simp [h1]
  · intro h2
    have h1 : ¬ 1 < (yearlyCounts records).length := by omega
    constructor
    · rw [hup, trendInsight_up_iff]
      simp [h1]
    · rw [hdn, trendInsight_down_iff]
      simp [h1]

/-- C3 (witness): on the concrete dataset spanning 2020-2024 with yearly
counts [2, 2, 2, 10, 10], the upward-trend insight fires (recent mean
22/3 exceeds 1.2 × earlier mean 2). -/
theorem c3_yearly_trend_rule_witness :
    ∃ l, generate_insights trendDemo = Except.ok l ∧ Insight.trendUp ∈ l := by
  obtain ⟨l, hok, hiff, -⟩ := c3_yearly_trend_rule trendDemo (by decide)
  have h2 : 2 ≤ (yearlyCounts trendDemo).length := by decide
  refine ⟨l, hok, ((hiff h2).1).mpr ⟨22 / 3, 2, ?_, ?_, by norm_num⟩⟩
  · have hc : yearlyCounts trendDemo = [2, 2, 2, 10, 10] := by decide
    rw [recentYearMean, hc]
    norm_num [listMean]
  · have hc : yearlyCounts trendDemo = [2, 2, 2, 10, 10] := by decide
    rw [earlierYearMean, hc]
    norm_num [listMean]

/-- C4: for every non-empty dataset the dominant-reason insight is always
emitted, citing the modal departure reason and its percentage share of
all records; the cited reason has maximal count among all reasons and,
among equally-modal reasons, is the one sorting first (smallest in the
lexicographic order mode() sorts by). -/
theorem c4_dominant_reason_insight (records : List Record) (hne : records ≠ []) :
    ∃ l tr p, generate_insights records = Except.ok l ∧
      topReason records = some tr ∧
      pctOf records (fun r => r.reason == tr) = some p ∧
      p = ((reasonCount records tr : ℚ) / (records.length : ℚ)) * 100 ∧
      Insight.dominantReason tr p ∈ l ∧
      (∀ s, reasonCount records s ≤ reasonCount records tr) ∧
      (∀ s ∈ records.map (fun r => r.reason),
        reasonCount records s = reasonCount records tr → tr = s ∨ tr < s) := by
  obtain ⟨tr, htr⟩ := topReason_isSome records hne
  obtain ⟨td, htd⟩ := topDept_isSome records hne
  have hok := generate_insights_eq records tr td htr htd
  have hpct := pctOf_ne_nil records (fun r => r.reason == tr) hne
  obtain ⟨-, hmax, hmin⟩ := topReason_spec records tr htr
  refine ⟨_, tr, _, hok, htr, hpct, rfl, ?_, hmax, hmin⟩
  have hgetD : (pctOf records (fun r => r.reason == tr)).getD 0 =
      ((records.countP (fun r => r.reason == tr) : ℚ) / (records.length : ℚ)) * 100 := by
    rw [hpct]
    rfl
  simp [List.mem_append, hgetD, reasonCount]

/-- C4 (witness): on the concrete tie dataset with two reasons of count 5
each, the engine deterministically picks "بيئة عمل سيئة", the one that
sorts first, and emits the dominant-reason insight for it. -/
theorem c4_dominant_reason_insight_witness :
    topReason tieDemo = some "بيئة عمل سيئة" ∧
      ∃ l tr p, generate_insights tieDemo = Except.ok l ∧
        topReason tieDemo = some tr ∧
        pctOf tieDemo (fun r => r.reason == tr) = some p ∧
        p = ((reasonCount tieDemo tr : ℚ) / (tieDemo.length : ℚ)) * 100 ∧
        Insight.dominantReason tr p ∈ l ∧
        (∀ s, reasonCount tieDemo s ≤ reasonCount tieDemo tr) ∧
        (∀ s ∈ tieDemo.map (fun r => r.reason),
          reasonCount tieDemo s = reasonCount tieDemo tr → tr = s ∨ tr < s) :=
  ⟨by decide, c4_dominant_reason_insight tieDemo (by decide)⟩

/-- C7: for every non-empty dataset the two gender-skew branches are
mutually exclusive with first match winning: male share > 65% emits the
male warning citing the male percentage (and no female warning can
appear); otherwise female share > 50% emits the female warning citing
the female percentage (and no male warning); otherwise neither
appears. -/
theorem c7_gender_skew_insight (records : List Record) (hne : records ≠ []) :
    ∃ l m f, generate_insights records = Except.ok l ∧
      malePctOf records = some m ∧ femalePctOf records = some f ∧
      (65 < m → Insight.maleSkew m ∈ l ∧ ∀ q, Insight.femaleSkew q ∉ l) ∧
      (m ≤ 65 → 50 < f → Insight.femaleSkew f ∈ l ∧ ∀ q, Insight.maleSkew q ∉ l) ∧
      (m ≤ 65 → f ≤ 50 → ∀ q, Insight.maleSkew q ∉ l ∧ Insight.femaleSkew q ∉ l) := by
  obtain ⟨tr, htr⟩ := topReason_isSome records hne
  obtain ⟨td, htd⟩ := topDept_isSome records hne
  have hok := generate_insights_eq records tr td htr htd
  obtain ⟨m, hm⟩ := pctOf_isSome records (fun r => r.gender == "ذكر") hne
  obtain ⟨f, hf⟩ := pctOf_isSome records (fun r => r.gender == "أنثى") hne
  have hm' : malePctOf records = some m := hm
  have hf' : femalePctOf records = some f := hf
  refine ⟨_, m, f, hok, hm', hf', ?_, ?_, ?_⟩
  · intro h65
    have hge := genderInsights_eq_male records m hm' h65
    constructor
    · rw [mem_insights_gender records tr td _ htr htd hok _ ⟨m, Or.inl rfl⟩, hge]
      simp
    · intro q
      rw [mem_insights_gender records tr td _ htr htd hok _ ⟨q, Or.inr rfl⟩, hge]
      simp
  · intro h65 h50
    have hge := genderInsights_eq_female records m f hm' hf' h65 h50
    constructor
    · rw [mem_insights_gender records tr td _ htr htd hok _ ⟨f, Or.inr rfl⟩, hge]
      simp
    · intro q
      rw [mem_insights_gender records tr td _ htr htd hok _ ⟨q, Or.inl rfl⟩, hge]
      simp
  · intro h65 h50 q
    have hge := genderInsights_eq_nil records m f hm' hf' h65 h50
    constructor
    · rw [mem_insights_gender records tr td _ htr htd hok _ ⟨q, Or.inl rfl⟩, hge]
      simp
    · rw [mem_insights_gender records tr td _ htr htd hok _ ⟨q, Or.inr rfl⟩, hge]
      simp

/-- C7 (witness): the 10-record dataset with 7 males and 3 females (70%
male) fires the male branch citing exactly 70. -/
theorem c7_gender_skew_insight_witness :
    ∃ l, generate_insights genderDemo = Except.ok l ∧ Insight.maleSkew 70 ∈ l := by
  obtain ⟨l, m, f, hok, hm, hf, h1, -, -⟩ := c7_gender_skew_insight genderDemo (by decide)
  have hm70 : malePctOf genderDemo = some 70 := by
    rw [malePctOf, pctOf_ne_nil genderDemo _ (by decide)]
    have hc : genderDemo.countP (fun r => r.gender == "ذكر") = 7 := by decide
    have hl : genderDemo.length = 10 := by decide
    rw [hc, hl]
    norm_num
  rw [hm70] at hm
  cases hm
  obtain ⟨hmem, -⟩ := h1 (by norm_num)
  exact ⟨l, hok, hmem⟩

/-- C5: for every non-empty dataset the recommendation list contains
exactly one of the two gender-branch strings — the male-focused one iff
male share > 65%, else the work-life-balance one — and exactly one
department-targeted string, parameterized by the top department. -/
theorem c5_gender_and_department_recommendations (records : List Record)
    (hne : records ≠ []) :
    ∃ l td, generate_recommendations records = Except.ok l ∧
      topDept records = some td ∧
      l.count Recommendation.maleFocus + l.count Recommendation.workLifeBalance = 1 ∧
      (Recommendation.maleFocus ∈ l ↔ optGt (malePctOf records) 65 = true) ∧
      l.countP Recommendation.isDeptAttention = 1 ∧
      l.count (Recommendation.deptAttention td) = 1 := by
  obtain ⟨tr, htr⟩ := topReason_isSome records hne
  obtain ⟨td, htd⟩ := topDept_isSome records hne
  have hok := generate_recommendations_eq records tr td htr htd
  refine ⟨_, td, hok, htd, ?_, ?_, ?_, ?_⟩ <;>
    [skip; rw [← genderRec_male_iff records]; skip; skip] <;>
    rcases reasonRecs_cases tr with hr | hr | hr | hr <;>
    rcases shortTenureRecs_cases records with hs | hs <;>
    rcases genderRec_cases records with hg | hg <;>
    simp [hr, hs, hg, Recommendation.isDeptAttention]

/-- C5 (witness): the gender/department recommendation invariant on a
concrete one-record dataset. -/
theorem c5_gender_and_department_recommendations_witness :
    ∃ l td, generate_recommendations demoData = Except.ok l ∧
      topDept demoData = some td ∧
      l.count Recommendation.maleFocus + l.count Recommendation.workLifeBalance = 1 ∧
      (Recommendation.maleFocus ∈ l ↔ optGt (malePctOf demoData) 65 = true) ∧
      l.countP Recommendation.isDeptAttention = 1 ∧
      l.count (Recommendation.deptAttention td) = 1 :=
  c5_gender_and_department_recommendations demoData (by decide)

/-- C9: for every non-empty dataset the recommendation list has length
exactly 2, 4 or 6: the dominant-reason rule contributes 0 or 2 strings,
the short-tenure rule 0 or 2, and the gender branch and the department
rule exactly one each. -/
theorem c9_recommendation_count (records : List Record) (hne : records ≠ []) :
    ∃ l tr, generate_recommendations records = Except.ok l ∧
      topReason records = some tr ∧
      ((reasonRecs tr).length = 0 ∨ (reasonRecs tr).length = 2) ∧
      ((shortTenureRecs records).length = 0 ∨ (shortTenureRecs records).length = 2) ∧
      (genderRec records).length = 1 ∧
      (l.length = 2 ∨ l.length = 4 ∨ l.length = 6) := by
  obtain ⟨tr, htr⟩ := topReason_isSome records hne
  obtain ⟨td, htd⟩ := topDept_isSome records hne
  have hok := generate_recommendations_eq records tr td htr htd
  refine ⟨_, tr, hok, htr, ?_, ?_, ?_, ?_⟩ <;>
    rcases reasonRecs_cases tr with hr | hr | hr | hr <;>
    rcases shortTenureRecs_cases records with hs | hs <;>
    rcases genderRec_cases records with hg | hg <;>
    simp [hr, hs, hg]

/-- C9 (witness): the recommendation-count invariant on a concrete
one-record dataset. -/
theorem c9_recommendation_count_witness :
    ∃ l tr, generate_recommendations demoData = Except.ok l ∧
      topReason demoData = some tr ∧
      ((reasonRecs tr).length = 0 ∨ (reasonRecs tr).length = 2) ∧
      ((shortTenureRecs demoData).length = 0 ∨ (shortTenureRecs demoData).length = 2) ∧
      (genderRec demoData).length = 1 ∧
      (l.length = 2 ∨ l.length = 4 ∨ l.length = 6) :=
  c9_recommendation_count demoData (by decide)

/-- C10: for every non-empty dataset the insight list has between 2 and 6
entries: exactly one dominant-reason insight and one top-department
insight always appear, and each of the other four rules (gender skew,
yearly trend, youth, short tenure) contributes at most one entry. -/
theorem c10_insight_count (records : List Record) (hne : records ≠ []) :
    ∃ l, generate_insights records = Except.ok l ∧
      2 ≤ l.length ∧ l.length ≤ 6 ∧
      l.countP Insight.isDominantReason = 1 ∧
      l.countP Insight.isTopDepartment = 1 ∧
      (genderInsights records).length ≤ 1 ∧ (trendInsight records).length ≤ 1 ∧
      (youthInsight records).length ≤ 1 ∧ (shortTenureInsight records).length ≤ 1 := by
  obtain ⟨tr, htr⟩ := topReason_isSome records hne
  obtain ⟨td, htd⟩ := topDept_isSome records hne
  have hok := generate_insights_eq records tr td htr htd
  refine ⟨_, hok, ?_, ?_, ?_, ?_, ?_, ?_, ?_, ?_⟩ <;>
    rcases genderInsights_cases records with hg | ⟨pg, hg⟩ | ⟨pg, hg⟩ <;>
    rcases trendInsight_cases records with ht | ht | ht <;>
    rcases youthInsight_cases records with hy | ⟨py, hy⟩ <;>
    rcases shortTenureInsight_cases records with hs | ⟨ps, hs⟩ <;>
    simp [hg, ht, hy, hs, Insight.isDominantReason, Insight.isTopDepartment]

/-- C10 (witness): the insight-count invariant on a concrete one-record
dataset. -/
theorem c10_insight_count_witness :
    ∃ l, generate_insights demoData = Except.ok l ∧
      2 ≤ l.length ∧ l.length ≤ 6 ∧
      l.countP Insight.isDominantReason = 1 ∧
      l.countP Insight.isTopDepartment = 1 ∧
      (genderInsights demoData).length ≤ 1 ∧ (trendInsight demoData).length ≤ 1 ∧
      (youthInsight demoData).length ≤ 1 ∧ (shortTenureInsight demoData).length ≤ 1 :=
  c10_insight_count demoData (by decide)
